import Mathlib

/-!
Verification of the Pixelle-Video core against its specification.

Shallow embedding of:
- `src/pixelle_video/utils/llm_util.py` (model discovery, connection probe)
- `src/reelforge/services/tts_service.py` (workflow resolver, dual-backend dispatcher)
- `src/web/i18n/__init__.py` (localization registry)
-/

namespace LlmUtil

/-- Parsed JSON body of a successful `GET .../models` response.
`data` is `none` when the JSON object has no "data" key (Python reads it
with `data.get("data", [])`); each entry is modelled by its "id" string. -/
structure ModelsBody where
  data : Option (List String)
deriving DecidableEq, Repr

/-- Outcome of the underlying HTTP request issued by `fetch_available_models`:
either a success status with a parsed JSON body, or one of the httpx failure
modes the Python code can observe (`HTTPStatusError` raised by
`raise_for_status`, `ConnectError`, `TimeoutException`, or any other
exception, which also covers JSON-shape errors). -/
inductive FetchFailure where
  | httpStatusError (code : Nat)
  | connectError
  | timeoutError
  | otherError (msg : String)
deriving DecidableEq, Repr

inductive HttpOutcome where
  | success (body : ModelsBody)
  | failure (f : FetchFailure)
deriving DecidableEq, Repr

/-- Embeds `base_url.rstrip("/")`: drop every trailing slash. -/
def normalizeBaseUrl (baseUrl : String) : String :=
  String.mk ((baseUrl.data.reverse.dropWhile (fun c => c == '/')).reverse)

/-- Python's `str.endswith(pat)`: `pat` is a suffix of `s`. -/
def strEndsWith (s pat : String) : Bool :=
  pat.data.isSuffixOf s.data

/-- The `models_url` computed by `fetch_available_models` (lines 42-50 of
`llm_util.py`): strip trailing slashes, then append `/models` when the result
already ends in `/v1`, else append `/v1/models`. -/
def models_url (baseUrl : String) : String :=
  let b := normalizeBaseUrl baseUrl
  if strEndsWith b "/v1" then b ++ "/models" else b ++ "/v1/models"

/-- Embeds `models.sort()` on a list of strings: ascending insertion sort. -/
def insertSorted (x : String) : List String → List String
  | [] => [x]
  | y :: ys => if x ≤ y then x :: y :: ys else y :: insertSorted x ys

def sortModels (l : List String) : List String :=
  l.foldr insertSorted []

/-- Embeds `fetch_available_models` over the outcome of its HTTP request: on a
success response it extracts `data.get("data", [])`, maps each entry to its
id and sorts; every httpx failure propagates to the caller as an exception,
modelled by `Except.error`. -/
def fetch_available_models : HttpOutcome → Except FetchFailure (List String)
  | .success body => .ok (sortModels (body.data.getD []))
  | .failure f => .error f

/-- Embeds `test_llm_connection` (lines 88-107 of `llm_util.py`): calls
`fetch_available_models` and converts every exception into a
`(False, message, 0)` triple; a success yields `(True, message, count)`. -/
def test_llm_connection (o : HttpOutcome) : Bool × String × Nat :=
  match fetch_available_models o with
  | .ok models =>
      (true, "Connection successful! " ++ toString models.length ++ " models available.",
        models.length)
  | .error (.httpStatusError code) =>
      if code == 401 then (false, "Authentication failed: Invalid API Key", 0)
      else if code == 403 then (false, "Access forbidden: Check your API Key permissions", 0)
      else if code == 404 then (false, "API endpoint not found: Check your Base URL", 0)
      else (false, "API error: HTTP " ++ toString code, 0)
  | .error .connectError => (false, "Connection failed: Cannot reach the server", 0)
  | .error .timeoutError => (false, "Connection timeout: Server did not respond in time", 0)
  | .error (.otherError m) => (false, "Error: " ++ m, 0)

end LlmUtil

namespace LlmUtil

/-- C2: for every outcome of the underlying HTTP request, `test_llm_connection`
returns a triple rather than raising: on success `(true, message, modelCount)`,
on any failure `(false, message, 0)`; and an HTTP 401 yields exactly
`(false, "Authentication failed: Invalid API Key", 0)`. -/
theorem C2_test_connection_total :
    (∀ o : HttpOutcome,
      (∃ models, fetch_available_models o = .ok models ∧
        test_llm_connection o =
          (true, "Connection successful! " ++ toString models.length ++ " models available.",
            models.length)) ∨
      ((test_llm_connection o).1 = false ∧ (test_llm_connection o).2.2 = 0)) ∧
    test_llm_connection (.failure (.httpStatusError 401)) =
      (false, "Authentication failed: Invalid API Key", 0) := by
  refine ⟨fun o => ?_, rfl⟩
  match o with
  | .success body =>
      exact Or.inl ⟨sortModels (body.data.getD []), rfl, rfl⟩
  | .failure (.httpStatusError code) =>
      right
      have hc : test_llm_connection (.failure (.httpStatusError code)) =
          (if code == 401 then (false, "Authentication failed: Invalid API Key", 0)
           else if code == 403 then
             (false, "Access forbidden: Check your API Key permissions", 0)
           else if code == 404 then (false, "API endpoint not found: Check your Base URL", 0)
           else (false, "API error: HTTP " ++ toString code, 0)) := rfl
      rw [hc]
      repeat' split
      all_goals exact ⟨rfl, rfl⟩
  | .failure .connectError => exact Or.inr ⟨rfl, rfl⟩
  | .failure .timeoutError => exact Or.inr ⟨rfl, rfl⟩
  | .failure (.otherError m) => exact Or.inr ⟨rfl, rfl⟩

/-- C5: the model-listing URL strips trailing slashes and appends `/models`
when the stripped base ends in `/v1`, else `/v1/models`; both example base
URLs resolve to `https://api.x.com/v1/models`. -/
theorem C5_models_url :
    models_url "https://api.x.com/v1" = "https://api.x.com/v1/models" ∧
    models_url "https://api.x.com" = "https://api.x.com/v1/models" ∧
    ∀ b : String,
      models_url b =
        if strEndsWith (normalizeBaseUrl b) "/v1" then normalizeBaseUrl b ++ "/models"
        else normalizeBaseUrl b ++ "/v1/models" := by
  refine ⟨by decide, by decide, fun b => rfl⟩

/-- C10: a success response whose body lacks a "data" key, or carries an
empty "data" array, makes `fetch_available_models` return the empty list and
`test_llm_connection` report success with model count 0. -/
theorem C10_empty_data (body : ModelsBody)
    (h : body.data = none ∨ body.data = some []) :
    fetch_available_models (.success body) = .ok [] ∧
    test_llm_connection (.success body) =
      (true, "Connection successful! 0 models available.", 0) := by
  have hempty : sortModels (body.data.getD []) = [] := by
    rcases h with h | h <;> simp [h, sortModels]
  constructor
  · simp [fetch_available_models, hempty]
  · simp only [test_llm_connection, fetch_available_models, hempty]
    rfl

/-- Witness for C10 at the concrete body with no "data" key. -/
theorem C10_empty_data_witness :
    fetch_available_models (.success ⟨none⟩) = .ok [] ∧
    test_llm_connection (.success ⟨none⟩) =
      (true, "Connection successful! 0 models available.", 0) :=
  C10_empty_data ⟨none⟩ (Or.inl rfl)

end LlmUtil

namespace TtsService

/-- Python's `str.startswith(pat)`: `pat` is a prefix of `s`. -/
def strStartsWith (s pat : String) : Bool :=
  pat.data.isPrefixOf s.data

/-- Embeds `TTSService.BUILTIN_PROVIDERS` (line 48 of `tts_service.py`). -/
def BUILTIN_PROVIDERS : List String := ["edge", "edge-tts"]

/-- Result of `TTSService._resolve_workflow`: either a built-in provider name
returned as-is (line 76), or whatever the parent class resolution produces
(line 79). The parent routine lives in `comfy_base_service.py`, outside this
source set, so it stays abstract: an arbitrary function argument. -/
inductive Resolution (τ : Type) where
  | builtin (name : String)
  | parent (r : τ)
deriving DecidableEq, Repr

/-- Embeds `TTSService._resolve_workflow` (lines 69-79): a null identifier is
replaced by the default, a built-in member is returned immediately, anything
else is delegated to the parent resolution routine. -/
def resolveWorkflow {τ : Type} (parentResolve : String → τ) (builtins : List String)
    (dflt : String) (workflow : Option String) : Resolution τ :=
  let w := workflow.getD dflt
  if w ∈ builtins then .builtin w else .parent (parentResolve w)

/-- The dispatch taken by `TTSService.__call__` (lines 142-156): edge-tts when
the identifier (or, when null, the default) is a built-in, otherwise the
ComfyUI path through `_resolve_workflow`. -/
inductive Route (τ : Type) where
  | edgeTts
  | comfy (r : Resolution τ)
deriving DecidableEq, Repr

def callRoute {τ : Type} (parentResolve : String → τ) (builtins : List String)
    (dflt : String) (workflow : Option String) : Route τ :=
  let isBuiltinCall : Bool :=
    match workflow with
    | some w => decide (w ∈ builtins)
    | none => decide (dflt ∈ builtins)
  if isBuiltinCall then .edgeTts
  else .comfy (resolveWorkflow parentResolve builtins dflt workflow)

end TtsService

namespace TtsService

/-- C3: an identifier in the built-in provider set resolves to the built-in
target no matter what the parent (file-based) resolution would return;
matching is exact and case-sensitive ("Edge" is not a built-in and is
delegated to the parent routine). -/
theorem C3_builtin_precedence :
    (∀ (τ : Type) (parentResolve : String → τ) (builtins : List String) (dflt w : String),
      w ∈ builtins →
        resolveWorkflow parentResolve builtins dflt (some w) = .builtin w) ∧
    BUILTIN_PROVIDERS.contains "Edge" = false ∧
    (∀ (τ : Type) (parentResolve : String → τ) (dflt : String),
      resolveWorkflow parentResolve BUILTIN_PROVIDERS dflt (some "Edge") =
        .parent (parentResolve "Edge")) := by
  refine ⟨fun τ parentResolve builtins dflt w h => ?_, by decide, fun τ parentResolve dflt => rfl⟩
  simp [resolveWorkflow, h]

/-- Witness for C3: "edge" is a built-in and resolves to the built-in target
even though the parent routine would resolve it to something else. -/
theorem C3_builtin_precedence_witness :
    resolveWorkflow (fun s => "workflows/tts_" ++ s ++ ".json") BUILTIN_PROVIDERS
      "edge" (some "edge") = .builtin "edge" :=
  C3_builtin_precedence.1 String (fun s => "workflows/tts_" ++ s ++ ".json")
    BUILTIN_PROVIDERS "edge" "edge" (by decide)

/-- C4: resolving a null identifier is identical to resolving the default
identifier itself, both in `_resolve_workflow` and in the `__call__`
dispatch. -/
theorem C4_null_is_default :
    ∀ (τ : Type) (parentResolve : String → τ) (builtins : List String) (dflt : String),
      resolveWorkflow parentResolve builtins dflt none =
        resolveWorkflow parentResolve builtins dflt (some dflt) ∧
      callRoute parentResolve builtins dflt none =
        callRoute parentResolve builtins dflt (some dflt) :=
  fun _ _ _ _ => ⟨rfl, rfl⟩

end TtsService

namespace TtsService

/-- A value in the engine's `outputs` mapping: a string, or some non-string
value that fails the `isinstance(value, str)` check. -/
inductive OutValue where
  | str (s : String)
  | other
deriving DecidableEq, Repr

/-- Shape of the engine result consumed by `_call_comfyui_workflow`
(lines 300-326 of `tts_service.py`): `status`, optional `msg` and the three
optional artifact fields; `none` models an absent or falsy attribute is kept
apart from an empty list, mirroring `hasattr` plus truthiness. -/
structure EngineResult where
  status : String
  msg : Option String
  audios : Option (List String)
  files : Option (List String)
  outputs : Option (List (String × OutValue))
deriving DecidableEq, Repr

/-- Embeds `any(value.endswith(ext) for ext in ['.mp3', '.wav', '.flac'])`. -/
def isAudioStr (s : String) : Bool :=
  LlmUtil.strEndsWith s ".mp3" || LlmUtil.strEndsWith s ".wav" ||
    LlmUtil.strEndsWith s ".flac"

/-- The loop over `result.outputs.items()` (lines 319-322): first string
value with an audio extension, in mapping iteration order. -/
def firstAudioValue : List (String × OutValue) → Option String
  | [] => none
  | (_, .str s) :: rest => if isAudioStr s then some s else firstAudioValue rest
  | (_, .other) :: rest => firstAudioValue rest

/-- The artifact probe (lines 308-322): `result.audios[0]` when `audios` is
present and non-empty, else `result.files[0]` when `files` is present and
non-empty, else the extension scan over `outputs`. -/
def locateAudio (r : EngineResult) : Option String :=
  match r.audios with
  | some (a :: _) => some a
  | _ =>
    match r.files with
    | some (f :: _) => some f
    | _ =>
      match r.outputs with
      | some outs => firstAudioValue outs
      | none => none

/-- Embeds `result.msg or "Unknown error"` (line 302): Python `or` replaces both a
null and an empty message. -/
def engineErrorMsg : Option String → String
  | some m => if m = "" then "Unknown error" else m
  | none => "Unknown error"

/-- What the dispatcher does with the located artifact (lines 328-348):
either download the URL to `dest` (creating parent directories, raising on
non-success HTTP status) and return `dest`, or return the reference found. -/
inductive ArtifactDelivery where
  | download (url : String) (dest : String)
  | direct (path : String)
deriving DecidableEq, Repr

def returnedPath : ArtifactDelivery → String
  | .download _ dest => dest
  | .direct p => p

/-- Truthiness of the `output_path` argument: `if output_path and ...` is
false both for `None` and for the empty string. -/
def truthyPath : Option String → Bool
  | some s => !(s == "")
  | none => false

/-- Lines 329-348: download only when `output_path` is truthy and the
artifact starts with `http://` or `https://`; otherwise return it as found. -/
def deliverArtifact (output_path : Option String) (audioPath : String) : ArtifactDelivery :=
  if truthyPath output_path &&
      (strStartsWith audioPath "http://" || strStartsWith audioPath "https://") then
    .download audioPath (output_path.getD "")
  else
    .direct audioPath

def noAudioMsg : String := "No audio file generated by workflow"

/-- Result handling of `_call_comfyui_workflow` (lines 300-348): non-completed
status raises the engine failure; a missing or falsy located artifact raises
the no-audio error; otherwise the artifact is delivered. -/
def handleResult (r : EngineResult) (output_path : Option String) :
    Except String ArtifactDelivery :=
  if r.status = "completed" then
    match locateAudio r with
    | some p =>
        if p = "" then .error noAudioMsg else .ok (deliverArtifact output_path p)
    | none => .error noAudioMsg
  else
    .error ("TTS generation failed: " ++ engineErrorMsg r.msg)

theorem firstAudioValue_isAudio :
    ∀ (outs : List (String × OutValue)) (p : String),
      firstAudioValue outs = some p → isAudioStr p = true := by
  intro outs
  induction outs with
  | nil => intro p h; simp [firstAudioValue] at h
  | cons kv rest ih =>
    intro p h
    obtain ⟨k, v⟩ := kv
    cases v with
    | str s =>
      cases hs : isAudioStr s with
      | true =>
        simp [firstAudioValue, hs] at h
        rw [← h]; exact hs
      | false =>
        simp [firstAudioValue, hs] at h
        exact ih p h
    | other =>
      simp [firstAudioValue] at h
      exact ih p h

theorem isAudioStr_ne_empty (p : String) (h : isAudioStr p = true) : ¬(p = "") := by
  intro hp
  rw [hp] at h
  exact absurd h (by decide)

end TtsService

namespace TtsService

/-- C1 counterexample: an engine result with status "completed", no `audios`,
and `files = ["notes.txt"]` makes the dispatcher return "notes.txt" — an
entry whose extension is not in {mp3, wav, flac} — instead of failing with
the "no audio generated" error as the claim states. -/
theorem C1_counterexample :
    handleResult ⟨"completed", none, none, some ["notes.txt"], none⟩ none =
      .ok (.direct "notes.txt") ∧
    isAudioStr "notes.txt" = false :=
  ⟨rfl, rfl⟩

/-- C1 (amended): on a "completed" result the dispatcher probes `audios`,
then `files`, then `outputs`; the first entry of `audios` or `files` is
selected unconditionally (no extension check — only the `outputs` scan
filters for mp3/wav/flac); the "no audio generated" error is raised exactly
when the probe yields nothing or yields an empty string. -/
theorem C1_probe_order :
    (∀ (r : EngineResult) (op : Option String) (a : String) (rest : List String),
      r.status = "completed" → r.audios = some (a :: rest) →
        handleResult r op =
          if a = "" then .error noAudioMsg else .ok (deliverArtifact op a)) ∧
    (∀ (r : EngineResult) (op : Option String) (f : String) (rest : List String),
      r.status = "completed" → (r.audios = none ∨ r.audios = some []) →
      r.files = some (f :: rest) →
        handleResult r op =
          if f = "" then .error noAudioMsg else .ok (deliverArtifact op f)) ∧
    (∀ (r : EngineResult) (op : Option String) (outs : List (String × OutValue)),
      r.status = "completed" → (r.audios = none ∨ r.audios = some []) →
      (r.files = none ∨ r.files = some []) → r.outputs = some outs →
        handleResult r op =
          match firstAudioValue outs with
          | some p => .ok (deliverArtifact op p)
          | none => .error noAudioMsg) ∧
    (∀ (r : EngineResult) (op : Option String),
      r.status = "completed" → (r.audios = none ∨ r.audios = some []) →
      (r.files = none ∨ r.files = some []) → r.outputs = none →
        handleResult r op = .error noAudioMsg) := by
  refine ⟨?_, ?_, ?_, ?_⟩
  · intro r op a rest hst hau
    obtain ⟨st, m, au, fi, ou⟩ := r
    simp only at hst hau
    subst hst hau
    simp [handleResult, locateAudio]
  · intro r op f rest hst hau hfi
    obtain ⟨st, m, au, fi, ou⟩ := r
    simp only at hst hau hfi
    subst hst hfi
    rcases hau with hau | hau <;> subst hau <;> simp [handleResult, locateAudio]
  · intro r op outs hst hau hfi hou
    obtain ⟨st, m, au, fi, ou⟩ := r
    simp only at hst hau hfi hou
    subst hst hou
    cases hfa : firstAudioValue outs with
    | some p =>
      have hp : ¬(p = "") := isAudioStr_ne_empty p (firstAudioValue_isAudio outs p hfa)
      rcases hau with hau | hau <;> rcases hfi with hfi | hfi <;> subst hau hfi <;>
        simp [handleResult, locateAudio, hfa, hp]
    | none =>
      rcases hau with hau | hau <;> rcases hfi with hfi | hfi <;> subst hau hfi <;>
        simp [handleResult, locateAudio, hfa]
  · intro r op hst hau hfi hou
    obtain ⟨st, m, au, fi, ou⟩ := r
    simp only at hst hau hfi hou
    subst hst hou
    rcases hau with hau | hau <;> rcases hfi with hfi | hfi <;> subst hau hfi <;>
      simp [handleResult, locateAudio]

/-- Witness for C1 (amended) at a concrete completed result carrying one
audio entry. -/
theorem C1_probe_order_witness :
    handleResult ⟨"completed", none, some ["out.mp3"], none, none⟩ none =
      .ok (.direct "out.mp3") :=
  (C1_probe_order.1 ⟨"completed", none, some ["out.mp3"], none, none⟩ none
    "out.mp3" [] rfl rfl).trans rfl

/-- C6 counterexample: with a supplied (but empty) `output_path` and a remote
URL artifact, the dispatcher performs no download and returns the URL, not
the supplied output path — Python's `if output_path and ...` treats the empty
string as no output path. -/
theorem C6_counterexample :
    deliverArtifact (some "") "http://h/a.mp3" = .direct "http://h/a.mp3" ∧
    returnedPath (deliverArtifact (some "") "http://h/a.mp3") ≠ "" :=
  ⟨rfl, by decide⟩

/-- C6 (amended): when the located artifact starts with `http://` or
`https://` and the caller supplied a non-empty `output_path`, the dispatcher
downloads the URL and returns exactly `output_path`; in every other case —
null output path, empty output path, or a non-URL artifact — it returns the
artifact reference unchanged. -/
theorem C6_download_rule :
    (∀ op p : String,
      op ≠ "" → (strStartsWith p "http://" || strStartsWith p "https://") = true →
        deliverArtifact (some op) p = .download p op ∧
        returnedPath (deliverArtifact (some op) p) = op) ∧
    (∀ op p : String,
      (strStartsWith p "http://" || strStartsWith p "https://") = false →
        deliverArtifact (some op) p = .direct p) ∧
    (∀ p : String, deliverArtifact none p = .direct p) ∧
    (∀ p : String, deliverArtifact (some "") p = .direct p) := by
  refine ⟨fun op p hop hurl => ?_, fun op p hurl => ?_, fun p => rfl, fun p => ?_⟩
  · have h1 : deliverArtifact (some op) p = .download p op := by
      simp [deliverArtifact, truthyPath, hurl, hop]
    exact ⟨h1, by rw [h1]; rfl⟩
  · simp [deliverArtifact, hurl]
  · simp [deliverArtifact, truthyPath]

/-- Witness for C6 (amended): a URL artifact with a non-empty output path is
downloaded to that path. -/
theorem C6_download_rule_witness :
    deliverArtifact (some "/tmp/out.mp3") "http://host/a.mp3" =
      .download "http://host/a.mp3" "/tmp/out.mp3" ∧
    returnedPath (deliverArtifact (some "/tmp/out.mp3") "http://host/a.mp3") =
      "/tmp/out.mp3" :=
  C6_download_rule.1 "/tmp/out.mp3" "http://host/a.mp3" (by decide) (by decide)

end TtsService

namespace TtsService

/-- Python dict insertion `d[k] = v`: update the value in place when the key
is present, append otherwise. -/
def dictInsert : List (String × String) → String → String → List (String × String)
  | [], k, v => [(k, v)]
  | kv :: rest, k, v =>
    if kv.1 = k then (k, v) :: rest else kv :: dictInsert rest k v

/-- Python dict lookup. -/
def dictGet : List (String × String) → String → Option String
  | [], _ => none
  | kv :: rest, k => if kv.1 = k then some kv.2 else dictGet rest k

/-- The binding a dict built from this (possibly duplicated) entry list would
hold for `k`: the last entry wins, as with repeated `d[k] = v`. -/
def lastLookup : List (String × String) → String → Option String
  | [], _ => none
  | kv :: rest, k =>
    match lastLookup rest k with
    | some v => some v
    | none => if kv.1 = k then some kv.2 else none

/-- Embeds `if x is not None: d[k] = x` for an optional TTS parameter. -/
def addIfSome (d : List (String × String)) (k : String) : Option String → List (String × String)
  | some v => dictInsert d k v
  | none => d

/-- Lines 267-277 of `tts_service.py`: `{"text": text}` extended with each of
voice/rate/volume/pitch exactly when non-null. -/
def namedParams (text : String) (voice rate volume pitch : Option String) :
    List (String × String) :=
  addIfSome (addIfSome (addIfSome (addIfSome [("text", text)] "voice" voice)
    "rate" rate) "volume" volume) "pitch" pitch

/-- Line 280: `workflow_params.update(params)` — the caller extras are merged
after the named parameters and overwrite on key collision. -/
def buildWorkflowParams (text : String) (voice rate volume pitch : Option String)
    (extras : List (String × String)) : List (String × String) :=
  extras.foldl (fun acc kv => dictInsert acc kv.1 kv.2) (namedParams text voice rate volume pitch)

theorem dictGet_dictInsert_self :
    ∀ (d : List (String × String)) (k v : String), dictGet (dictInsert d k v) k = some v := by
  intro d k v
  induction d with
  | nil => simp [dictInsert, dictGet]
  | cons kv rest ih =>
    by_cases h : kv.1 = k
    · simp [dictInsert, dictGet, h]
    · simp [dictInsert, dictGet, h, ih]

theorem dictGet_dictInsert_ne :
    ∀ (d : List (String × String)) (k v kq : String), k ≠ kq →
      dictGet (dictInsert d k v) kq = dictGet d kq := by
  intro d k v kq hne
  induction d with
  | nil => simp [dictInsert, dictGet, hne]
  | cons kv rest ih =>
    by_cases h : kv.1 = k
    · simp [dictInsert, dictGet, h, hne]
    · simp [dictInsert, dictGet, h, ih]

theorem dictGet_foldl_insert :
    ∀ (extras : List (String × String)) (d : List (String × String)) (k : String),
      dictGet (extras.foldl (fun acc kv => dictInsert acc kv.1 kv.2) d) k =
        match lastLookup extras k with
        | some v => some v
        | none => dictGet d k := by
  intro extras
  induction extras with
  | nil => intro d k; rfl
  | cons kv rest ih =>
    intro d k
    simp only [List.foldl_cons]
    rw [ih]
    by_cases hk : kv.1 = k
    · cases hll : lastLookup rest k with
      | some v => simp [lastLookup, hll]
      | none =>
        rw [hk]
        simp [lastLookup, hll, hk, dictGet_dictInsert_self]
    · cases hll : lastLookup rest k with
      | some v => simp [lastLookup, hll]
      | none => simp [lastLookup, hll, hk, dictGet_dictInsert_ne d kv.1 kv.2 k hk]

theorem dictGet_addIfSome_ne (d : List (String × String)) (k : String)
    (v : Option String) (kq : String) (h : k ≠ kq) :
    dictGet (addIfSome d k v) kq = dictGet d kq := by
  cases v with
  | some x => exact dictGet_dictInsert_ne d k x kq h
  | none => rfl

end TtsService

namespace TtsService

/-- C7: the parameter mapping passed to the engine is `{text}` plus each of
voice/rate/volume/pitch exactly when non-null; caller extras are merged
afterwards, so an extra binding for any key — named parameters included —
overwrites it. -/
theorem C7_params_merge :
    (∀ (text : String) (voice rate volume pitch : Option String)
        (extras : List (String × String)) (k : String),
      dictGet (buildWorkflowParams text voice rate volume pitch extras) k =
        match lastLookup extras k with
        | some v => some v
        | none => dictGet (namedParams text voice rate volume pitch) k) ∧
    (∀ (text : String) (voice rate volume pitch : Option String),
      dictGet (namedParams text voice rate volume pitch) "text" = some text ∧
      dictGet (namedParams text voice rate volume pitch) "voice" = voice ∧
      dictGet (namedParams text voice rate volume pitch) "rate" = rate ∧
      dictGet (namedParams text voice rate volume pitch) "volume" = volume ∧
      dictGet (namedParams text voice rate volume pitch) "pitch" = pitch) ∧
    (∀ (text : String) (voice rate volume pitch : Option String) (k : String),
      k ≠ "text" → k ≠ "voice" → k ≠ "rate" → k ≠ "volume" → k ≠ "pitch" →
      dictGet (namedParams text voice rate volume pitch) k = none) := by
  refine ⟨?_, ?_, ?_⟩
  · intro text voice rate volume pitch extras k
    exact dictGet_foldl_insert extras (namedParams text voice rate volume pitch) k
  · intro text voice rate volume pitch
    cases voice <;> cases rate <;> cases volume <;> cases pitch <;>
      simp [namedParams, addIfSome, dictInsert, dictGet]
  · intro text voice rate volume pitch k ht hv hr hvol hp
    rw [namedParams,
      dictGet_addIfSome_ne _ "pitch" pitch k (Ne.symm hp),
      dictGet_addIfSome_ne _ "volume" volume k (Ne.symm hvol),
      dictGet_addIfSome_ne _ "rate" rate k (Ne.symm hr),
      dictGet_addIfSome_ne _ "voice" voice k (Ne.symm hv)]
    simp [dictGet, Ne.symm ht]

/-- Witness for C7 at concrete inputs: an extra "voice" binding overwrites
the named voice parameter, and an unrelated key is absent. -/
theorem C7_params_merge_witness :
    (dictGet (buildWorkflowParams "hi" (some "a") none none none [("voice", "b")]) "voice" =
      match lastLookup [("voice", "b")] "voice" with
      | some v => some v
      | none => dictGet (namedParams "hi" (some "a") none none none) "voice") ∧
    dictGet (namedParams "hi" (some "a") none none none) "seed" = none := by
  refine ⟨?_, ?_⟩
  · exact C7_params_merge.1 "hi" (some "a") none none none [("voice", "b")] "voice"
  · exact C7_params_merge.2.2 "hi" (some "a") none none none "seed"
      (by decide) (by decide) (by decide) (by decide) (by decide)

end TtsService

namespace I18n

/-- Module state of `web/i18n/__init__.py`: the loaded locales (each locale
represented by its "t" translation table) and the current language, initially
"zh_CN" (lines 11-12). -/
structure I18nState where
  locales : List (String × List (String × String))
  currentLanguage : String
deriving DecidableEq, Repr

/-- Embeds `_locales.get(lang)`. -/
def lookupLocale : List (String × List (String × String)) → String →
    Option (List (String × String))
  | [], _ => none
  | kv :: rest, lang => if kv.1 = lang then some kv.2 else lookupLocale rest lang

/-- Embeds `translations.get(key)`. -/
def lookupKey : List (String × String) → String → Option String
  | [], _ => none
  | kv :: rest, k => if kv.1 = k then some kv.2 else lookupKey rest k

/-- The module state before any locale is loaded. -/
def initialState : I18nState := ⟨[], "zh_CN"⟩

/-- Embeds `set_language` (lines 38-45): adopt `lang_code` only when it is a key of
the loaded locales, otherwise keep the current language. -/
def set_language (s : I18nState) (lang_code : String) : I18nState :=
  if (lookupLocale s.locales lang_code).isSome then
    { s with currentLanguage := lang_code }
  else
    s

/-- Embeds `get_language` (lines 48-50). -/
def get_language (s : I18nState) : String := s.currentLanguage

/-- Embeds `tr` (lines 53-95), without the string-interpolation step, which the
claims do not touch: exact key in the current language, else the provided
fallback, else the same key in "en_US" when the current language differs
from it, else the raw key. -/
def tr (s : I18nState) (key : String) (fallback : Option String) : String :=
  let translations := (lookupLocale s.locales s.currentLanguage).getD []
  match lookupKey translations key with
  | some r => r
  | none =>
    match fallback with
    | some f => f
    | none =>
      match (if s.currentLanguage = "en_US" then none else lookupLocale s.locales "en_US") with
      | some enT =>
        match lookupKey enT key with
        | some r => r
        | none => key
      | none => key

end I18n

namespace I18n

/-- C8: `tr` resolves through the fallback chain — exact key in the current
language, then the provided fallback, then the key in the default language
"en_US", then the raw key — and a key present only in "en_US" while the
current language differs resolves to the "en_US" string; the function is
total, so a missing key never raises. -/
theorem C8_fallback_chain :
    (∀ (s : I18nState) (key : String) (fb : Option String) (v : String),
      lookupKey ((lookupLocale s.locales s.currentLanguage).getD []) key = some v →
        tr s key fb = v) ∧
    (∀ (s : I18nState) (key f : String),
      lookupKey ((lookupLocale s.locales s.currentLanguage).getD []) key = none →
        tr s key (some f) = f) ∧
    (∀ (s : I18nState) (key : String) (enT : List (String × String)) (v : String),
      lookupKey ((lookupLocale s.locales s.currentLanguage).getD []) key = none →
      s.currentLanguage ≠ "en_US" → lookupLocale s.locales "en_US" = some enT →
      lookupKey enT key = some v →
        tr s key none = v) ∧
    (∀ (s : I18nState) (key : String),
      lookupKey ((lookupLocale s.locales s.currentLanguage).getD []) key = none →
      (s.currentLanguage = "en_US" ∨ lookupLocale s.locales "en_US" = none ∨
        (∀ enT, lookupLocale s.locales "en_US" = some enT → lookupKey enT key = none)) →
        tr s key none = key) := by
  refine ⟨?_, ?_, ?_, ?_⟩
  · intro s key fb v h
    simp [tr, h]
  · intro s key f h
    simp [tr, h]
  · intro s key enT v h1 h2 h3 h4
    simp [tr, h1, h2, h3, h4]
  · intro s key h1 h2
    by_cases hc : s.currentLanguage = "en_US"
    · rw [hc] at h1
      simp [tr, hc, h1]
    · cases henl : lookupLocale s.locales "en_US" with
      | none => simp [tr, h1, hc, henl]
      | some enT =>
        rcases h2 with h2 | h2 | h2
        · exact absurd h2 hc
        · rw [h2] at henl; cases henl
        · have hk := h2 enT henl
          simp [tr, h1, hc, henl, hk]

/-- Witness for C8: "app.title" exists only in the "en_US" locale, the
current language is "zh_CN", no fallback is given — the "en_US" string is
returned, not the raw key. -/
theorem C8_fallback_chain_witness :
    tr ⟨[("en_US", [("app.title", "ReelForge")])], "zh_CN"⟩ "app.title" none = "ReelForge" :=
  C8_fallback_chain.2.2.1 ⟨[("en_US", [("app.title", "ReelForge")])], "zh_CN"⟩
    "app.title" [("app.title", "ReelForge")] "ReelForge" (by decide) (by decide) (by decide)
    (by decide)

/-- C9: `set_language` with a code not present in the loaded locales leaves
the state (hence `get_language`) unchanged, and the invariant "the current
language is the initial \x22zh_CN\x22 or a key of the loaded locales" is
preserved by every `set_language` call. -/
theorem C9_set_language_invariant :
    (∀ (s : I18nState) (lang : String),
      lookupLocale s.locales lang = none →
        set_language s lang = s ∧
        get_language (set_language s lang) = get_language s) ∧
    (∀ (s : I18nState) (lang : String),
      (get_language s = "zh_CN" ∨ (lookupLocale s.locales (get_language s)).isSome = true) →
        (get_language (set_language s lang) = "zh_CN" ∨
          (lookupLocale (set_language s lang).locales
            (get_language (set_language s lang))).isSome = true)) := by
  refine ⟨?_, ?_⟩
  · intro s lang h
    have hs : set_language s lang = s := by simp [set_language, h]
    exact ⟨hs, by rw [hs]⟩
  · intro s lang h
    by_cases hl : (lookupLocale s.locales lang).isSome
    · right
      have hs : set_language s lang = { s with currentLanguage := lang } := by
        simp [set_language, hl]
      rw [hs]
      simpa [get_language] using hl
    · have hs : set_language s lang = s := by simp [set_language, hl]
      rw [hs]
      exact h

/-- Witness for C9: from the initial state, setting an unloaded language is
a no-op, and the invariant holds afterwards. -/
theorem C9_set_language_invariant_witness :
    (set_language initialState "fr_FR" = initialState ∧
      get_language (set_language initialState "fr_FR") = get_language initialState) ∧
    (get_language (set_language initialState "fr_FR") = "zh_CN" ∨
      (lookupLocale (set_language initialState "fr_FR").locales
        (get_language (set_language initialState "fr_FR"))).isSome = true) :=
  ⟨C9_set_language_invariant.1 initialState "fr_FR" rfl,
    C9_set_language_invariant.2 initialState "fr_FR" (Or.inl rfl)⟩

end I18n
